import Mathlib

/-!
Verification of the authentication flow of the turf-booking server
(`src/server/modules/user/user.routes.ts`: the user router and the auth
controller with `register`, `login`, `adminLogin`, `logout`, `getMe`,
`forgotPassword`, `verifyEmail`, `resendVerificationEmail`).

The controller code is embedded shallowly: each Express handler becomes a
pure Lean function from the request body plus an explicit environment
(user store, freshly generated tokens, external permission check) to an
`Except ApiError` result carrying the HTTP status, the cookies set, the
serialized user object, and the updated store.  The external collaborators
that are not part of the repository source (mongoose persistence, bcrypt,
the validator library, nodemailer) and the repository files that are not
available (the user model, the auth service) are modelled from the spec;
each such definition says so in its doc comment.
-/

namespace TurfAuth

/-- A stored user document, with the fields the spec's data model lists for
`User`: name, email, hashed password, role, verification flag,
verification token + expiry, reset token + expiry.  Mongo object ids are
modelled as strings, instants as natural-number milliseconds. -/
structure StoredUser where
  id : String
  first_name : String
  last_name : String
  email : String
  password : String
  role : String
  isVerified : Bool
  verificationToken : Option String
  verificationTokenExpires : Option Nat
  resetPasswordToken : Option String
  resetPasswordExpires : Option Nat
  deriving DecidableEq

/-- The user collection (the mongoose `User` model's backing store). -/
abbrev UserDB := List StoredUser

/-- An `ErrorResponse(message, statusCode)` raised through `next(...)`. -/
structure ApiError where
  status : Nat
  message : String
  deriving DecidableEq

/-- One `res.cookie(name, value, options)` call.  `expiresEpoch` records
`expires: new Date(0)` (immediate expiry); `maxAge` is in milliseconds. -/
structure SetCookie where
  name : String
  value : String
  httpOnly : Bool
  maxAge : Option Nat
  expiresEpoch : Bool
  sameSite : String
  path : Option String
  deriving DecidableEq

/-- The JS `String.prototype.toLowerCase` used on emails, over the
character list with the ASCII case mapping `Char.toLower`. -/
def strToLower (s : String) : String :=
  String.mk (s.data.map Char.toLower)

/-- The `validator.trim` sanitizer: strips leading and trailing
whitespace, over the character list. -/
def strTrim (s : String) : String :=
  String.mk
    (((s.data.dropWhile Char.isWhitespace).reverse.dropWhile
        Char.isWhitespace).reverse)

/-- Modelled from the spec: the `validator` library's `isEmail` is an
external collaborator (route-level input validation is excluded as
external).  Modelled as: exactly one at-sign with a nonempty local part, a
nonempty domain containing a dot, and no whitespace.  The handlers only
branch on its boolean answer, so claims quantify over inputs on which the
check passes. -/
def isEmail (s : String) : Bool :=
  let cs := s.data
  let dom := (cs.dropWhile (fun c => c ≠ '@')).drop 1
  cs.count '@' == 1 &&
    (cs.takeWhile (fun c => c ≠ '@')).length > 0 &&
    dom.length > 0 && dom.contains '.' &&
    dom.head? != some '.' && dom.getLast? != some '.' &&
    !(cs.any Char.isWhitespace)

/-- Modelled from the spec: bcrypt hashing (the user model's pre-save hook,
not under src/) is modelled as an injective tagging function on the plain
password. -/
def hashPassword (plain : String) : String :=
  "bcrypt$" ++ plain

/-- Modelled from the spec: `authService.matchPassword` (not under src/)
performs the bcrypt comparison of the candidate password against the
stored hash; modelled as equality of the stored hash with the hash of the
candidate. -/
def matchPassword (plain : String) (u : StoredUser) : Bool :=
  hashPassword plain == u.password

/-- The case-insensitive collation lookup (`.collation({locale: "en",
strength: 2})`) used by `register`, `login`, `adminLogin` and
`resendVerificationEmail`: strength-2 collation compares email strings
ignoring letter case. -/
def findByEmailCI (db : UserDB) (email : String) : Option StoredUser :=
  db.find? (fun u => strToLower u.email == strToLower email)

/-- The exact-match lookup `User.findOne({ email })` used by
`forgotPassword`: no collation, no normalization. -/
def findByEmailExact (db : UserDB) (email : String) : Option StoredUser :=
  db.find? (fun u => u.email == email)

/-- `User.findById(id)`. -/
def findById (db : UserDB) (id : String) : Option StoredUser :=
  db.find? (fun u => u.id == id)

/-- Serialization of a user document to a JSON object (mongoose
`toObject()` on a document whose fields are all populated in memory):
every present field becomes a key/value pair. -/
def toObject (u : StoredUser) : List (String × String) :=
  [("_id", u.id), ("first_name", u.first_name), ("last_name", u.last_name),
   ("email", u.email), ("password", u.password), ("role", u.role),
   ("isVerified", toString u.isVerified)]
  ++ (match u.verificationToken with
      | some t => [("verificationToken", t)]
      | none => [])
  ++ (match u.verificationTokenExpires with
      | some e => [("verificationTokenExpires", toString e)]
      | none => [])
  ++ (match u.resetPasswordToken with
      | some t => [("resetPasswordToken", t)]
      | none => [])
  ++ (match u.resetPasswordExpires with
      | some e => [("resetPasswordExpires", toString e)]
      | none => [])

/-- `delete obj.password` on a serialized object. -/
def deleteField (obj : List (String × String)) (key : String) :
    List (String × String) :=
  obj.filter (fun kv => kv.1 ≠ key)

/-- Modelled from the spec: `authService.sendVerificationEmail` (not under
src/) generates a single-use verification token with an expiry, stores
both on the user document (the data model: verification token + expiry,
created on registration), and dispatches an email containing token+id.
The generated token and expiry are passed in as environment. -/
def sendVerificationEmail (vtok : String) (vexp : Nat) (u : StoredUser) :
    StoredUser :=
  { u with verificationToken := some vtok,
           verificationTokenExpires := some vexp }

/-- The body of a `POST /api/v1/auth/register` request; absent JSON fields
are `none` (JS `undefined`, defaulted by `?? ""` resp. `?? "user"`). -/
structure RegisterBody where
  first_name : Option String
  last_name : Option String
  email : Option String
  password : Option String
  role : Option String
  deriving DecidableEq

/-- A successful register response: status 201, the serialized user with
the password field deleted, and the store extended with the new user. -/
structure RegisterOk where
  status : Nat
  userJson : List (String × String)
  newDb : UserDB
  deriving DecidableEq

/-- The `register` handler.  Environment: `db` the user store, `newId` the
id mongo assigns to the created document, `vtok`/`vexp` the verification
token and expiry `sendVerificationEmail` generates. -/
def register (db : UserDB) (newId : String) (vtok : String) (vexp : Nat)
    (body : RegisterBody) : Except ApiError RegisterOk :=
  let first_name := strTrim (body.first_name.getD "")
  let last_name := strTrim (body.last_name.getD "")
  let email := strToLower (strTrim (body.email.getD ""))
  let password := strTrim (body.password.getD "")
  if first_name = "" ∨ last_name = "" ∨ email = "" ∨ password = "" then
    .error ⟨400, "All fields are required"⟩
  else if !(isEmail email) then
    .error ⟨400, "Invalid email format"⟩
  else
    match findByEmailCI db email with
    | some _ => .error ⟨400, "Email already registered"⟩
    | none =>
        let created : StoredUser :=
          { id := newId, first_name := first_name, last_name := last_name,
            email := email, password := hashPassword password,
            role := body.role.getD "user", isVerified := false,
            verificationToken := none, verificationTokenExpires := none,
            resetPasswordToken := none, resetPasswordExpires := none }
        let created := sendVerificationEmail vtok vexp created
        .ok { status := 201,
              userJson := deleteField (toObject created) "password",
              newDb := db ++ [created] }

/-- The body of a login / admin-login request. -/
structure LoginBody where
  email : Option String
  password : Option String
  deriving DecidableEq

/-- A successful login response: status 200, the cookies set, the
serialized user with the password field deleted, and the issued session
token. -/
structure LoginOk where
  status : Nat
  cookies : List SetCookie
  userJson : List (String × String)
  token : String
  deriving DecidableEq

/-- The `login` handler.  Environment: `db` the user store, `tok` the
session token `authService.generateToken` (modelled from the spec: signs a
JWT over the user id, not under src/) produces for the user. -/
def login (db : UserDB) (tok : String) (body : LoginBody) :
    Except ApiError LoginOk :=
  let email := strToLower (strTrim (body.email.getD ""))
  let password := strTrim (body.password.getD "")
  if email = "" ∨ password = "" then
    .error ⟨400, "Please provide an email and password"⟩
  else if !(isEmail email) then
    .error ⟨400, "Invalid email format"⟩
  else
    match findByEmailCI db email with
    | none => .error ⟨401, "Invalid credentials"⟩
    | some user =>
        if !(matchPassword password user) then
          .error ⟨401, "Invalid credentials"⟩
        else
          .ok { status := 200,
                cookies := [{ name := "token", value := tok,
                              httpOnly := true,
                              maxAge := some (30 * 24 * 60 * 60 * 1000),
                              expiresEpoch := false, sameSite := "none",
                              path := none }],
                userJson := deleteField (toObject user) "password",
                token := tok }

/-- A successful admin-login response: status 200, the cookies set (in the
order the handler sets them), and the serialized user. -/
structure AdminLoginOk where
  status : Nat
  cookies : List SetCookie
  userJson : List (String × String)
  deriving DecidableEq

/-- The `adminLogin` handler.  Environment: `adminAccess` models
`authService.checkAdminAccess` (modelled from the spec: given a user id,
determines whether the user holds admin dashboard permission; not under
src/; it may throw, hence `Except Unit Bool`), and `tok` the generated
session token. -/
def adminLogin (db : UserDB) (adminAccess : String → Except Unit Bool)
    (tok : String) (body : LoginBody) : Except ApiError AdminLoginOk :=
  let email := strToLower (strTrim (body.email.getD ""))
  let password := strTrim (body.password.getD "")
  if email = "" ∨ password = "" then
    .error ⟨400, "Please provide an email and password"⟩
  else if !(isEmail email) then
    .error ⟨400, "Invalid email format"⟩
  else
    match findByEmailCI db email with
    | none => .error ⟨401, "Invalid credentials"⟩
    | some user =>
        if !(matchPassword password user) then
          .error ⟨401, "Invalid credentials"⟩
        else
          match adminAccess user.id with
          | .error _ => .error ⟨500, "Admin access verification failed"⟩
          | .ok false =>
              .error ⟨403, "Unauthorized access to admin dashboard"⟩
          | .ok true =>
              .ok { status := 200,
                    cookies :=
                      [{ name := "admin_token", value := tok,
                         httpOnly := true,
                         maxAge := some (30 * 24 * 60 * 60 * 1000),
                         expiresEpoch := false, sameSite := "lax",
                         path := some "/" },
                       { name := "token", value := tok,
                         httpOnly := true,
                         maxAge := some (30 * 24 * 60 * 60 * 1000),
                         expiresEpoch := false, sameSite := "lax",
                         path := some "/" }],
                    userJson := deleteField (toObject user) "password" }

/-- The logout response: status 200, `success: true`, and the cookies set. -/
structure LogoutResult where
  status : Nat
  success : Bool
  message : String
  cookies : List SetCookie
  deriving DecidableEq

/-- The `logout` handler.  It reads nothing from the request: whatever
subset of session cookies the request carries (`reqCookies`), it
unconditionally sets all three cookies to the empty value with
`expires: new Date(0)`. -/
def logout (_reqCookies : List (String × String)) : LogoutResult :=
  { status := 200, success := true, message := "Logged out successfully",
    cookies :=
      [{ name := "token", value := "", httpOnly := true, maxAge := none,
         expiresEpoch := true, sameSite := "lax", path := none },
       { name := "admin_token", value := "", httpOnly := true,
         maxAge := none, expiresEpoch := true, sameSite := "lax",
         path := none },
       { name := "org_token", value := "", httpOnly := true, maxAge := none,
         expiresEpoch := true, sameSite := "lax", path := none }] }

/-- The query string of a verify-email request
(`POST /api/v1/auth/verify-email/?token=token&id=id`); a missing parameter
is `none`, and the JS truthiness test `!token` also rejects the empty
string. -/
structure VerifyQuery where
  token : Option String
  id : Option String
  deriving DecidableEq

/-- A successful verify-email response together with the updated store. -/
structure VerifyOk where
  status : Nat
  message : String
  newDb : UserDB
  deriving DecidableEq

/-- The `verifyEmail` handler at instant `now` (milliseconds): validates
token+id against the stored verification token and expiry; on match,
flips the verified flag, clears the token fields and saves. -/
def verifyEmail (db : UserDB) (now : Nat) (q : VerifyQuery) :
    Except ApiError VerifyOk :=
  let tokv := q.token.getD ""
  let idv := q.id.getD ""
  if tokv = "" ∨ idv = "" then
    .error ⟨400, "Invalid verification link"⟩
  else
    match findById db idv with
    | none => .error ⟨404, "User not found"⟩
    | some user =>
        if (user.verificationToken != some tokv) ||
            (match user.verificationTokenExpires with
             | some e => decide (now > e)
             | none => false) then
          .error ⟨400, "Invalid or expired token"⟩
        else
          .ok { status := 200, message := "Email verified successfully!",
                newDb := db.map (fun v =>
                  if v.id = user.id then
                    { v with isVerified := true, verificationToken := none,
                             verificationTokenExpires := none }
                  else v) }

/-- The body of a forgot-password request. -/
structure ForgotBody where
  email : Option String
  deriving DecidableEq

/-- A password-reset token record (the `Token` model), keyed by user id. -/
structure ResetTokenRec where
  userId : String
  token : String
  deriving DecidableEq

/-- A successful forgot-password response with the updated reset-token
store. -/
structure ForgotOk where
  status : Nat
  newTokens : List ResetTokenRec
  deriving DecidableEq

/-- The `forgotPassword` handler.  The lookup is
`User.findOne({ email })` on the raw request email: no trim, no
lowercasing, no collation.  Environment: `tokens` the reset-token store,
`newTok` the token `authService.sendPasswordResetEmail` (modelled from the
spec: issues a fresh reset token and emails it; not under src/) would
store, `emailFails` whether the dispatch throws. -/
def forgotPassword (db : UserDB) (tokens : List ResetTokenRec)
    (newTok : String) (emailFails : Bool) (body : ForgotBody) :
    Except ApiError ForgotOk :=
  let email := body.email.getD ""
  if email = "" then
    .error ⟨400, "Please provide an email"⟩
  else
    match findByEmailExact db email with
    | none => .error ⟨404, "User not found"⟩
    | some user =>
        let tokens := tokens.filter (fun t => t.userId ≠ user.id)
        if emailFails then
          .error ⟨500, "Failed to send password reset email"⟩
        else
          .ok { status := 200,
                newTokens := tokens ++ [{ userId := user.id,
                                          token := newTok }] }

/-- A middleware in a route registration chain: `protect` (session
authentication) or `checkPermission(name)`. -/
inductive Middleware
  | protect
  | checkPermission (perm : String)
  deriving DecidableEq

/-- One route registration on the user router: HTTP method, path, the
middleware chain, and the final handler name. -/
structure Route where
  method : String
  path : String
  middlewares : List Middleware
  handler : String
  deriving DecidableEq

/-- The registrations on the user router (`user.routes.ts`), in source
order; commented-out middleware (`checkPermission('view_users')`) is not
part of a chain. -/
def userRoutes : List Route :=
  [{ method := "GET", path := "/admin", middlewares := [.protect],
     handler := "getUsersAdmin" },
   { method := "GET", path := "/:userId/admin", middlewares := [],
     handler := "getUserByIdAdmin" },
   { method := "GET", path := "/me", middlewares := [.protect],
     handler := "getCurrentUserProfile" },
   { method := "PUT", path := "/me", middlewares := [.protect],
     handler := "updateUserProfile" },
   { method := "PUT", path := "/change-password", middlewares := [.protect],
     handler := "changePassword" },
   { method := "GET", path := "/organizations", middlewares := [.protect],
     handler := "getUserOrganizations" }]

/-! Helper lemmas about the string model. -/

theorem char_ofNat_toNat (n : Nat) (h : 97 ≤ n) (h2 : n ≤ 122) :
    (Char.ofNat n).toNat = n := by
  have hv : n.isValidChar := Or.inl (by omega)
  simp [Char.ofNat, hv, Char.toNat, Char.ofNatAux, UInt32.toNat,
    BitVec.toNat_ofNatLt]

theorem char_toLower_idem (c : Char) : c.toLower.toLower = c.toLower := by
  unfold Char.toLower
  by_cases hc : c.toNat ≥ 65 ∧ c.toNat ≤ 90
  · simp only [hc, and_self, if_true, if_pos]
    have ht : (Char.ofNat (c.toNat + 32)).toNat = c.toNat + 32 :=
      char_ofNat_toNat _ (by omega) (by omega)
    rw [if_neg (by omega)]
  · simp only [hc, if_false]

theorem strToLower_idem (s : String) :
    strToLower (strToLower s) = strToLower s := by
  simp only [strToLower, List.map_map]
  congr 1
  apply List.map_congr_left
  intro c _
  exact char_toLower_idem c

theorem isEmail_ne_empty (s : String) (h : isEmail s = true) : s ≠ "" := by
  intro hs
  subst hs
  exact absurd h (by decide)

theorem findById_map_preserve (db : UserDB) (f : StoredUser → StoredUser)
    (hf : ∀ v, (f v).id = v.id) (idv : String) :
    findById (db.map f) idv = (findById db idv).map f := by
  induction db with
  | nil => rfl
  | cons a l ih =>
      simp only [findById, List.map_cons, List.find?] at *
      rw [hf a]
      cases h : (a.id == idv) with
      | false => simpa [h] using ih
      | true => simp [h]

/-- Claim C1, counterexample: a registration request that passes
validation and the duplicate-email check but carries `role: "admin"`
creates the new user with role "admin", not "user" — the handler passes
`role ?? "user"` to `User.create`, so a supplied role value is honored. -/
theorem C1_role_not_forced_counterexample :
    (register [] "u1" "vtok" 1000
      { first_name := some "Ada", last_name := some "Lovelace",
        email := some "ada@test.com", password := some "pw12345",
        role := some "admin" }).toOption.map
        (fun r => r.newDb.map (fun v => v.role)) = some ["admin"] := by
  decide

/-- Claim C1, amended: for every registration request that passes
validation and the duplicate-email check, the Register operation creates
the new user with the role supplied in the request body, defaulting to
"user" only when the body supplies none. -/
theorem C1_register_role_from_body (db : UserDB) (newId vtok : String)
    (vexp : Nat) (body : RegisterBody) (r : RegisterOk)
    (h : register db newId vtok vexp body = .ok r) :
    ∃ u : StoredUser, r.newDb = db ++ [u] ∧ u.role = body.role.getD "user" := by
  simp only [register] at h
  split at h
  · exact absurd h (by simp)
  split at h
  · exact absurd h (by simp)
  split at h
  · exact absurd h (by simp)
  · simp only [Except.ok.injEq] at h
    subst h
    exact ⟨_, rfl, rfl⟩

/-- Claim C1, witness for the amended theorem at a concrete input. -/
theorem C1_register_role_from_body_witness :
    ∃ r : RegisterOk,
      register [] "u2" "vtok" 1000
        { first_name := some "Bob", last_name := some "Stone",
          email := some "bob@test.com", password := some "pw12345",
          role := some "moderator" } = .ok r ∧
      ∃ u : StoredUser, r.newDb = [] ++ [u] ∧ u.role = "moderator" := by
  refine ⟨_, rfl, ?_⟩
  exact C1_register_role_from_body [] "u2" "vtok" 1000
    { first_name := some "Bob", last_name := some "Stone",
      email := some "bob@test.com", password := some "pw12345",
      role := some "moderator" } _ rfl

/-- Claim C6: at a concrete registration request passing all checks, the
201 response's user object still contains the `verificationToken` key
(the handler deletes only `password` from `toObject()`, while the
verification token is stored on the user before the response, per the
spec's data model, created on registration).  The pair records
(verificationToken present, password present). -/
theorem C6_register_response_exposes_verification_token :
    (register [] "u3" "vtok-123" 1000
      { first_name := some "Ada", last_name := some "Lovelace",
        email := some "c6@test.com", password := some "pw12345",
        role := none }).toOption.map
        (fun r => (r.userJson.any (fun kv => kv.1 == "verificationToken"),
                   r.userJson.any (fun kv => kv.1 == "password"))) =
      some (true, false) := by
  decide

/-- Claim C7: for every request cookie state, the Logout operation sets
all three session cookies (token, admin_token, org_token) to the empty
value with immediate expiry and responds 200 with success true. -/
theorem C7_logout_clears_all_cookies (reqCookies : List (String × String)) :
    (logout reqCookies).status = 200 ∧ (logout reqCookies).success = true ∧
    (logout reqCookies).cookies.map
        (fun c => (c.name, c.value, c.expiresEpoch)) =
      [("token", "", true), ("admin_token", "", true),
       ("org_token", "", true)] :=
  ⟨rfl, rfl, rfl⟩

/-- Claim C8: the user router registers exactly one route whose handler is
`getUserByIdAdmin`, namely GET /:userId/admin, and its middleware chain is
empty — in particular `protect` is absent, so every request reaches the
handler. -/
theorem C8_get_user_by_id_admin_unprotected :
    (userRoutes.filter (fun r => r.handler == "getUserByIdAdmin")).map
        (fun r => (r.method, r.path, r.middlewares)) =
      [("GET", "/:userId/admin", [])] := by
  decide

/-- Claim C3: for every pair of login requests, one whose (normalized)
email matches no stored user and one whose email matches stored user `u`
but whose password does not match, the Login operation returns the same
status 401 with the identical message "Invalid credentials" in both runs. -/
theorem C3_login_uniform_invalid_credentials (db : UserDB)
    (tok1 tok2 : String) (b1 b2 : LoginBody) (u : StoredUser)
    (h1p : strTrim (b1.password.getD "") ≠ "")
    (h1f : isEmail (strToLower (strTrim (b1.email.getD ""))) = true)
    (h1n : findByEmailCI db (strToLower (strTrim (b1.email.getD ""))) = none)
    (h2p : strTrim (b2.password.getD "") ≠ "")
    (h2f : isEmail (strToLower (strTrim (b2.email.getD ""))) = true)
    (h2u : findByEmailCI db (strToLower (strTrim (b2.email.getD ""))) = some u)
    (h2m : matchPassword (strTrim (b2.password.getD "")) u = false) :
    login db tok1 b1 = .error ⟨401, "Invalid credentials"⟩ ∧
    login db tok2 b2 = .error ⟨401, "Invalid credentials"⟩ := by
  constructor
  · simp only [login]
    rw [if_neg (fun hc => hc.elim (isEmail_ne_empty _ h1f) h1p)]
    rw [h1f]
    rw [h1n]
    simp
  · simp only [login]
    rw [if_neg (fun hc => hc.elim (isEmail_ne_empty _ h2f) h2p)]
    rw [h2f]
    rw [h2u]
    simp [h2m]

/-- Claim C3, witness: a concrete store with one user, one request with an
unknown email and one with the right email but wrong password. -/
theorem C3_login_uniform_invalid_credentials_witness :
    login [{ id := "u1", first_name := "Ada", last_name := "Lovelace",
             email := "ada@test.com", password := hashPassword "right-pw",
             role := "user", isVerified := true, verificationToken := none,
             verificationTokenExpires := none, resetPasswordToken := none,
             resetPasswordExpires := none }] "tok"
        { email := some "nobody@test.com", password := some "whatever" } =
      .error ⟨401, "Invalid credentials"⟩ ∧
    login [{ id := "u1", first_name := "Ada", last_name := "Lovelace",
             email := "ada@test.com", password := hashPassword "right-pw",
             role := "user", isVerified := true, verificationToken := none,
             verificationTokenExpires := none, resetPasswordToken := none,
             resetPasswordExpires := none }] "tok"
        { email := some "ada@test.com", password := some "wrong-pw" } =
      .error ⟨401, "Invalid credentials"⟩ := by
  exact C3_login_uniform_invalid_credentials
    [{ id := "u1", first_name := "Ada", last_name := "Lovelace",
       email := "ada@test.com", password := hashPassword "right-pw",
       role := "user", isVerified := true, verificationToken := none,
       verificationTokenExpires := none, resetPasswordToken := none,
       resetPasswordExpires := none }] "tok" "tok"
    { email := some "nobody@test.com", password := some "whatever" }
    { email := some "ada@test.com", password := some "wrong-pw" }
    { id := "u1", first_name := "Ada", last_name := "Lovelace",
      email := "ada@test.com", password := hashPassword "right-pw",
      role := "user", isVerified := true, verificationToken := none,
      verificationTokenExpires := none, resetPasswordToken := none,
      resetPasswordExpires := none }
    (by decide) (by decide) (by decide) (by decide) (by decide) (by decide)
    (by decide)

/-- Claim C4: for every stored user and registration request whose
(trimmed) email differs from that user's email only in letter case, and
which passes the field and format validation, the Register operation fails
with status 400 and message "Email already registered"; the error result
carries no store update, so no new user is created. -/
theorem C4_register_duplicate_case_variant (db : UserDB)
    (newId vtok : String) (vexp : Nat) (body : RegisterBody) (u : StoredUser)
    (hu : u ∈ db)
    (hfn : strTrim (body.first_name.getD "") ≠ "")
    (hln : strTrim (body.last_name.getD "") ≠ "")
    (hpw : strTrim (body.password.getD "") ≠ "")
    (hf : isEmail (strToLower (strTrim (body.email.getD ""))) = true)
    (_hne : strTrim (body.email.getD "") ≠ u.email)
    (hci : strToLower (strTrim (body.email.getD "")) = strToLower u.email) :
    register db newId vtok vexp body =
      .error ⟨400, "Email already registered"⟩ := by
  have hpred : (strToLower u.email ==
      strToLower (strToLower (strTrim (body.email.getD "")))) = true := by
    rw [strToLower_idem, hci]
    simp
  simp only [register]
  rw [if_neg (fun hc => hc.elim hfn (fun hc2 => hc2.elim hln
    (fun hc3 => hc3.elim (isEmail_ne_empty _ hf) hpw)))]
  rw [hf]
  cases hfind : findByEmailCI db (strToLower (strTrim (body.email.getD "")))
    with
  | none =>
      exfalso
      rw [findByEmailCI, List.find?_eq_none] at hfind
      exact hfind u hu hpred
  | some v =>
      simp

/-- Claim C4, witness: registering `A@Test.com` while `a@test.com` is
stored fails with 400 "Email already registered". -/
theorem C4_register_duplicate_case_variant_witness :
    register
      [{ id := "u1", first_name := "Ada", last_name := "Lovelace",
         email := "a@test.com", password := hashPassword "right-pw",
         role := "user", isVerified := true, verificationToken := none,
         verificationTokenExpires := none, resetPasswordToken := none,
         resetPasswordExpires := none }] "u9" "vtok" 1000
      { first_name := some "Eve", last_name := some "Jones",
        email := some "A@Test.com", password := some "pw12345",
        role := none } =
      .error ⟨400, "Email already registered"⟩ := by
  exact C4_register_duplicate_case_variant
    [{ id := "u1", first_name := "Ada", last_name := "Lovelace",
       email := "a@test.com", password := hashPassword "right-pw",
       role := "user", isVerified := true, verificationToken := none,
       verificationTokenExpires := none, resetPasswordToken := none,
       resetPasswordExpires := none }] "u9" "vtok" 1000
    { first_name := some "Eve", last_name := some "Jones",
      email := some "A@Test.com", password := some "pw12345", role := none }
    { id := "u1", first_name := "Ada", last_name := "Lovelace",
      email := "a@test.com", password := hashPassword "right-pw",
      role := "user", isVerified := true, verificationToken := none,
      verificationTokenExpires := none, resetPasswordToken := none,
      resetPasswordExpires := none }
    (by decide) (by decide) (by decide) (by decide) (by decide) (by decide)
    (by decide)

/-- Claim C2: for every admin-login request passing input validation, (1)
whenever the operation succeeds with a 200 response (admin_token and token
cookies issued), some stored user matches the credentials and the admin
dashboard permission check returned true for that user; and (2) whenever
the credentials are correct but the permission check returns false, the
response is the 403 error "Unauthorized access to admin dashboard". -/
theorem C2_admin_login_requires_permission (db : UserDB)
    (adminAccess : String → Except Unit Bool) (tok : String)
    (body : LoginBody)
    (hp : strTrim (body.password.getD "") ≠ "")
    (hf : isEmail (strToLower (strTrim (body.email.getD ""))) = true) :
    (∀ r, adminLogin db adminAccess tok body = .ok r →
        r.status = 200 ∧
        r.cookies.map (fun c => c.name) = ["admin_token", "token"] ∧
        ∃ u, findByEmailCI db (strToLower (strTrim (body.email.getD ""))) =
              some u ∧
          matchPassword (strTrim (body.password.getD "")) u = true ∧
          adminAccess u.id = .ok true) ∧
    (∀ u, findByEmailCI db (strToLower (strTrim (body.email.getD ""))) =
            some u →
        matchPassword (strTrim (body.password.getD "")) u = true →
        adminAccess u.id = .ok false →
        adminLogin db adminAccess tok body =
          .error ⟨403, "Unauthorized access to admin dashboard"⟩) := by
  constructor
  · intro r h
    simp only [adminLogin] at h
    split at h
    · exact absurd h (by simp)
    split at h
    · exact absurd h (by simp)
    split at h
    · exact absurd h (by simp)
    next u hfind =>
      split at h
      · exact absurd h (by simp)
      next hmatch =>
        split at h
        next herr => exact absurd h (by simp)
        next hfalse => exact absurd h (by simp)
        next htrue =>
          simp only [Except.ok.injEq] at h
          subst h
          refine ⟨rfl, rfl, u, hfind, ?_, htrue⟩
          simpa using hmatch
  · intro u hfind hmatch hacc
    simp only [adminLogin]
    rw [if_neg (fun hc => hc.elim (isEmail_ne_empty _ hf) hp)]
    rw [hf]
    rw [hfind]
    simp [hmatch, hacc]

/-- Claim C2, witness: a store with one user whose password is right-pw;
the permission check denies access, so the admin login with the correct
credentials answers 403. -/
theorem C2_admin_login_requires_permission_witness :
    adminLogin
      [{ id := "u1", first_name := "Ada", last_name := "Lovelace",
         email := "ada@test.com", password := hashPassword "right-pw",
         role := "user", isVerified := true, verificationToken := none,
         verificationTokenExpires := none, resetPasswordToken := none,
         resetPasswordExpires := none }] (fun _ => .ok false) "tok"
      { email := some "ada@test.com", password := some "right-pw" } =
      .error ⟨403, "Unauthorized access to admin dashboard"⟩ := by
  exact (C2_admin_login_requires_permission
    [{ id := "u1", first_name := "Ada", last_name := "Lovelace",
       email := "ada@test.com", password := hashPassword "right-pw",
       role := "user", isVerified := true, verificationToken := none,
       verificationTokenExpires := none, resetPasswordToken := none,
       resetPasswordExpires := none }] (fun _ => .ok false) "tok"
    { email := some "ada@test.com", password := some "right-pw" }
    (by decide) (by decide)).2
    { id := "u1", first_name := "Ada", last_name := "Lovelace",
      email := "ada@test.com", password := hashPassword "right-pw",
      role := "user", isVerified := true, verificationToken := none,
      verificationTokenExpires := none, resetPasswordToken := none,
      resetPasswordExpires := none }
    (by decide) (by decide) rfl

/-- Claim C9: every successful admin-login response sets exactly two
cookies, first admin_token and then token, both holding the same freshly
generated session token, both HTTP-only with a 30-day maxAge, sameSite
lax on path /. -/
theorem C9_admin_login_sets_both_cookies (db : UserDB)
    (adminAccess : String → Except Unit Bool) (tok : String)
    (body : LoginBody) (r : AdminLoginOk)
    (h : adminLogin db adminAccess tok body = .ok r) :
    r.cookies =
      [{ name := "admin_token", value := tok, httpOnly := true,
         maxAge := some (30 * 24 * 60 * 60 * 1000), expiresEpoch := false,
         sameSite := "lax", path := some "/" },
       { name := "token", value := tok, httpOnly := true,
         maxAge := some (30 * 24 * 60 * 60 * 1000), expiresEpoch := false,
         sameSite := "lax", path := some "/" }] := by
  simp only [adminLogin] at h
  split at h
  · exact absurd h (by simp)
  split at h
  · exact absurd h (by simp)
  split at h
  · exact absurd h (by simp)
  next u hfind =>
    split at h
    · exact absurd h (by simp)
    next hmatch =>
      split at h
      next herr => exact absurd h (by simp)
      next hfalse => exact absurd h (by simp)
      next htrue =>
        simp only [Except.ok.injEq] at h
        subst h
        rfl

/-- Claim C9, witness: a concrete successful admin login. -/
theorem C9_admin_login_sets_both_cookies_witness :
    ∃ r : AdminLoginOk,
      adminLogin
        [{ id := "u1", first_name := "Ada", last_name := "Lovelace",
           email := "ada@test.com", password := hashPassword "right-pw",
           role := "admin", isVerified := true, verificationToken := none,
           verificationTokenExpires := none, resetPasswordToken := none,
           resetPasswordExpires := none }] (fun _ => .ok true) "fresh-tok"
        { email := some "ada@test.com", password := some "right-pw" } =
        .ok r ∧
      r.cookies =
        [{ name := "admin_token", value := "fresh-tok", httpOnly := true,
           maxAge := some (30 * 24 * 60 * 60 * 1000), expiresEpoch := false,
           sameSite := "lax", path := some "/" },
         { name := "token", value := "fresh-tok", httpOnly := true,
           maxAge := some (30 * 24 * 60 * 60 * 1000), expiresEpoch := false,
           sameSite := "lax", path := some "/" }] := by
  refine ⟨_, rfl, ?_⟩
  exact C9_admin_login_sets_both_cookies
    [{ id := "u1", first_name := "Ada", last_name := "Lovelace",
       email := "ada@test.com", password := hashPassword "right-pw",
       role := "admin", isVerified := true, verificationToken := none,
       verificationTokenExpires := none, resetPasswordToken := none,
       resetPasswordExpires := none }] (fun _ => .ok true) "fresh-tok"
    { email := some "ada@test.com", password := some "right-pw" } _ rfl

/-- Claim C5: a verification token is accepted at most once — the first
call with the matching, unexpired token answers 200, sets the verified
flag and clears the token fields in the store, and any later call
presenting the same token against the updated store fails with 400
"Invalid or expired token". -/
theorem C5_verification_token_single_use (db : UserDB) (now later : Nat)
    (idv tokv : String) (u : StoredUser)
    (htok : tokv ≠ "") (hid : idv ≠ "")
    (hu : findById db idv = some u)
    (hmatch : u.verificationToken = some tokv)
    (hexp : (match u.verificationTokenExpires with
             | some e => decide (now > e)
             | none => false) = false) :
    ∃ res : VerifyOk,
      verifyEmail db now { token := some tokv, id := some idv } = .ok res ∧
      findById res.newDb idv =
        some { u with isVerified := true, verificationToken := none,
                      verificationTokenExpires := none } ∧
      verifyEmail res.newDb later { token := some tokv, id := some idv } =
        .error ⟨400, "Invalid or expired token"⟩ := by
  have hfid : ∀ v : StoredUser,
      ((fun v : StoredUser =>
        if v.id = u.id then
          { v with isVerified := true, verificationToken := none,
                   verificationTokenExpires := none }
        else v) v).id = v.id := by
    intro v
    by_cases hv : v.id = u.id <;> simp [hv]
  refine ⟨{ status := 200, message := "Email verified successfully!",
            newDb := db.map (fun v =>
              if v.id = u.id then
                { v with isVerified := true, verificationToken := none,
                         verificationTokenExpires := none }
              else v) }, ?_, ?_, ?_⟩
  · simp only [verifyEmail, Option.getD_some]
    rw [if_neg (fun hc => hc.elim htok hid)]
    rw [hu]
    simp [hmatch, hexp]
  · rw [findById_map_preserve db _ hfid idv, hu]
    simp
  · simp only [verifyEmail, Option.getD_some]
    rw [if_neg (fun hc => hc.elim htok hid)]
    rw [findById_map_preserve db _ hfid idv, hu]
    simp

/-- Claim C5, witness: a concrete user with a pending verification token;
the first verify call succeeds and the replay fails with 400. -/
theorem C5_verification_token_single_use_witness :
    ∃ res : VerifyOk,
      verifyEmail
        [{ id := "u1", first_name := "Ada", last_name := "Lovelace",
           email := "ada@test.com", password := hashPassword "right-pw",
           role := "user", isVerified := false,
           verificationToken := some "vt-1",
           verificationTokenExpires := some 1000,
           resetPasswordToken := none, resetPasswordExpires := none }] 500
        { token := some "vt-1", id := some "u1" } = .ok res ∧
      findById res.newDb "u1" =
        some { id := "u1", first_name := "Ada", last_name := "Lovelace",
               email := "ada@test.com", password := hashPassword "right-pw",
               role := "user", isVerified := true,
               verificationToken := none, verificationTokenExpires := none,
               resetPasswordToken := none, resetPasswordExpires := none } ∧
      verifyEmail res.newDb 2000
        { token := some "vt-1", id := some "u1" } =
        .error ⟨400, "Invalid or expired token"⟩ := by
  exact C5_verification_token_single_use
    [{ id := "u1", first_name := "Ada", last_name := "Lovelace",
       email := "ada@test.com", password := hashPassword "right-pw",
       role := "user", isVerified := false,
       verificationToken := some "vt-1",
       verificationTokenExpires := some 1000,
       resetPasswordToken := none, resetPasswordExpires := none }] 500 2000
    "u1" "vt-1"
    { id := "u1", first_name := "Ada", last_name := "Lovelace",
      email := "ada@test.com", password := hashPassword "right-pw",
      role := "user", isVerified := false,
      verificationToken := some "vt-1",
      verificationTokenExpires := some 1000,
      resetPasswordToken := none, resetPasswordExpires := none }
    (by decide) (by decide) (by decide) (by decide) (by decide)

/-- Claim C10: the Forgot Password operation looks the user up by exact,
unnormalized email.  For a store holding user `u` and a request email that
differs from `u.email` only in letter case (hence exactly matches no
stored email), forgotPassword fails with 404 "User not found", while the
case-insensitive collation lookup used by Register and Login does find a
user for the same request email. -/
theorem C10_forgot_password_exact_lookup (db : UserDB)
    (tokens : List ResetTokenRec) (newTok : String) (emailFails : Bool)
    (body : ForgotBody) (u : StoredUser)
    (hu : u ∈ db)
    (hne : ∀ v ∈ db, v.email ≠ body.email.getD "")
    (hemail : body.email.getD "" ≠ "")
    (hci : strToLower (body.email.getD "") = strToLower u.email) :
    forgotPassword db tokens newTok emailFails body =
      .error ⟨404, "User not found"⟩ ∧
    findByEmailCI db (body.email.getD "") ≠ none := by
  constructor
  · simp only [forgotPassword]
    rw [if_neg hemail]
    cases hfind : findByEmailExact db (body.email.getD "") with
    | none => simp
    | some v =>
        exfalso
        rw [findByEmailExact] at hfind
        exact hne v (List.mem_of_find?_eq_some hfind)
          (by simpa using List.find?_some hfind)
  · intro hnone
    rw [findByEmailCI, List.find?_eq_none] at hnone
    exact hnone u hu (by simp [hci])

/-- Claim C10, witness: `a@test.com` is stored; forgot-password with
`A@Test.com` answers 404 while the collation lookup finds the user. -/
theorem C10_forgot_password_exact_lookup_witness :
    forgotPassword
      [{ id := "u1", first_name := "Ada", last_name := "Lovelace",
         email := "a@test.com", password := hashPassword "right-pw",
         role := "user", isVerified := true, verificationToken := none,
         verificationTokenExpires := none, resetPasswordToken := none,
         resetPasswordExpires := none }] [] "rt-1" false
      { email := some "A@Test.com" } = .error ⟨404, "User not found"⟩ ∧
    findByEmailCI
      [{ id := "u1", first_name := "Ada", last_name := "Lovelace",
         email := "a@test.com", password := hashPassword "right-pw",
         role := "user", isVerified := true, verificationToken := none,
         verificationTokenExpires := none, resetPasswordToken := none,
         resetPasswordExpires := none }] "A@Test.com" ≠ none := by
  exact C10_forgot_password_exact_lookup
    [{ id := "u1", first_name := "Ada", last_name := "Lovelace",
       email := "a@test.com", password := hashPassword "right-pw",
       role := "user", isVerified := true, verificationToken := none,
       verificationTokenExpires := none, resetPasswordToken := none,
       resetPasswordExpires := none }] [] "rt-1" false
    { email := some "A@Test.com" }
    { id := "u1", first_name := "Ada", last_name := "Lovelace",
      email := "a@test.com", password := hashPassword "right-pw",
      role := "user", isVerified := true, verificationToken := none,
      verificationTokenExpires := none, resetPasswordToken := none,
      resetPasswordExpires := none }
    (by decide) (by decide) (by decide) (by decide)

end TurfAuth
